import Mathlib

/-!
Verification of the LEAudio multi-device playback engine.

Shallow embedding of the core of `multi_device_audio.py` (the
`AudioDeviceManager` class) and of the Flask control surface in
`Latest.py` (stop, status, multi-file playback and the periodic
temp-file sweep), together with theorems settling the frozen claims.
-/

namespace LEAudioVerify

/-! ## Numpy-style arrays and `load_audio_file`
Embedding of `AudioDeviceManager.load_audio_file`
(`multi_device_audio.py`, lines 110-130).  An array is modelled by its
shape together with its flat data; `size` is the product of the shape
(numpy `ndarray.size`) and `ndim` the number of axes. -/

structure NpArray where
  shape : List Nat
  data : List ℚ
deriving DecidableEq, Repr

def NpArray.size (a : NpArray) : Nat := a.shape.prod

def NpArray.ndim (a : NpArray) : Nat := a.shape.length

/-- numpy `data.reshape(-1, 1)`: the flat data viewed as a column. -/
def NpArray.reshapeCol (a : NpArray) : NpArray :=
  { shape := [a.size, 1], data := a.data }

inductive LoadError where
  | fileNotFound
  | emptyFile
deriving DecidableEq, Repr

/-- `load_audio_file` (`multi_device_audio.py` 110-130): a missing file
raises `FileNotFoundError`, an empty array raises `ValueError`, a 1-D
array is reshaped to a column; otherwise the data is returned as read.
The on-disk file is modelled by `Option NpArray`: `none` when the path
does not exist, otherwise the array `sf.read` would produce. -/
def load_audio_file (file : Option NpArray) : Except LoadError NpArray :=
  match file with
  | none => Except.error LoadError.fileNotFound
  | some a =>
      if a.size = 0 then Except.error LoadError.emptyFile
      else if a.ndim = 1 then Except.ok a.reshapeCol
      else Except.ok a

/-! ## Channel clamping and downmix in `play_on_device`
Lines 155-161 of `multi_device_audio.py` compute the stream channel
count and possibly downmix the data; audio data is represented as a
list of frames, each frame a list of per-channel samples. -/

/-- `channels = min(audio_data.shape[1], device.max_output_channels)`. -/
def play_stream_channels (bufCh devMax : Nat) : Nat := min bufCh devMax

/-- The data handed to `stream.write`: when clamping occurred and the
buffer has more than one channel, `np.mean(audio_data, axis=1,
keepdims=True)` replaces each frame by its single-sample average. -/
def play_write_data (frames : List (List ℚ)) (bufCh devMax : Nat) : List (List ℚ) :=
  if play_stream_channels bufCh devMax < bufCh then
    if 1 < bufCh then frames.map (fun r => [r.sum / (bufCh : ℚ)])
    else frames
  else frames

/-! ## The device manager
`AudioDevice` (lines 19-30) and the mutable state of
`AudioDeviceManager` (lines 36-43).  The dictionaries
`active_streams`, `stop_events` and `playback_threads` are modelled by
association lists / key lists with dictionary (replace-on-insert)
semantics. -/

structure AudioDevice where
  index : Nat
  name : String
  max_input_channels : Nat
  max_output_channels : Nat
  default_samplerate : Nat
  is_default : Bool
deriving DecidableEq, Repr

/-- The observable state of one `sd.OutputStream`. -/
structure StreamSt where
  active : Bool
deriving DecidableEq, Repr

structure Mgr where
  devices : List AudioDevice
  active_streams : List (Nat × StreamSt)
  stop_events : List Nat
  playback_threads : List Nat
  is_playing : Bool
  max_simultaneous_streams : Nat
deriving DecidableEq, Repr

/-- `AudioDeviceManager.__init__`: empty registries, cap of 4. -/
def init_mgr : Mgr :=
  { devices := []
    active_streams := []
    stop_events := []
    playback_threads := []
    is_playing := false
    max_simultaneous_streams := 4 }

/-- `next((d for d in self.devices if d.index == device_index), None)`. -/
def find_device (m : Mgr) (d : Nat) : Option AudioDevice :=
  m.devices.find? (fun dev => dev.index == d)

/-- Dictionary-style key insertion (python `dict[key] = value` leaves
the key set unchanged when the key is already present). -/
def key_insert (l : List Nat) (d : Nat) : List Nat :=
  if l.contains d then l else d :: l

/-- `play_on_device` (`multi_device_audio.py` 132-236) up to the point
where the worker thread is spawned, with the body of the outer `try`
made explicit: an `Except.error` models an exception reaching the
outer handler (in the source, `sd.OutputStream(...)` raising), and it
carries the state as mutated so far — the stop event registered at
line 153 is NOT rolled back.  `open_ok` is the oracle for whether the
backend accepts the stream parameters. -/
def play_on_device_try (m : Mgr) (d : Nat) (open_ok : Bool) :
    Except Mgr (Bool × Mgr) :=
  match find_device m d with
  | none => Except.ok (false, m)
  | some _ =>
      if (m.active_streams.find? (fun p => p.1 == d)).isSome then
        Except.ok (false, m)
      else if m.max_simultaneous_streams ≤ m.active_streams.length then
        Except.ok (false, m)
      else
        let m1 : Mgr := { m with stop_events := key_insert m.stop_events d }
        if open_ok then
          Except.ok (true,
            { m1 with
                active_streams := (d, StreamSt.mk true) :: m1.active_streams
                playback_threads := key_insert m1.playback_threads d })
        else Except.error m1

/-- `play_on_device` with the outer `except Exception: return False`
handler (lines 234-236): an exception is converted into `False`. -/
def play_on_device (m : Mgr) (d : Nat) (open_ok : Bool) : Bool × Mgr :=
  match play_on_device_try m d open_ok with
  | Except.ok r => r
  | Except.error m1 => (false, m1)

/-- `stop_all_playback` (lines 303-373): after stopping streams and
joining threads, all three registries are cleared unconditionally and
`is_playing` is reset. -/
def stop_all_playback (m : Mgr) : Mgr :=
  { m with
      active_streams := []
      playback_threads := []
      stop_events := []
      is_playing := false }

/-- The `finally` block of a playback thread (lines 218-226): it
deletes the device from `active_streams` and `stop_events` (and from
those two only). -/
def thread_cleanup_mgr (m : Mgr) (d : Nat) : Mgr :=
  { m with
      active_streams := m.active_streams.filter (fun p => p.1 != d)
      stop_events := m.stop_events.filter (fun k => k != d) }

/-- Natural exhaustion of the hardware buffer on device `d`: the
stream object reports `active = False` from then on. -/
def drain_mgr (m : Mgr) (d : Nat) : Mgr :=
  { m with
      active_streams :=
        m.active_streams.map (fun p => if p.1 == d then (p.1, StreamSt.mk false) else p) }

/-- `play_on_all_devices` sets `self.is_playing = True` (line 296). -/
def play_all_mark (m : Mgr) : Mgr := { m with is_playing := true }

/-- `get_device_status` (lines 375-387). -/
def get_device_status (m : Mgr) : List (Nat × String) :=
  m.devices.map (fun dev =>
    (dev.index,
      match (m.active_streams.find? (fun p => p.1 == dev.index)).map Prod.snd with
      | some s => if s.active then "Playing" else "Finished"
      | none => "Idle"))

/-! ## Lifecycle of one playback session
The worker spawned by `play_on_device` (the local `playback_thread`,
`multi_device_audio.py` lines 174-232) is modelled as a transition
system over the session-visible state: whether the device still has an
entry in `active_streams`, whether its stop event has been set,
whether the stream object is open resp. still draining hardware, and
the position of the thread in its control flow. -/

inductive TPhase where
  | writing
  | polling
  | closing
  | errored
  | done
deriving DecidableEq, Repr

structure SessionSt where
  in_registry : Bool
  stop_requested : Bool
  stream_open : Bool
  stream_active : Bool
  raised : Bool
  phase : TPhase
deriving DecidableEq, Repr

/-- State right after `play_on_device` returned `True`: registry entry
present (line 171), stop event clear, stream open and started, the
thread inside `stream.write` (line 180). -/
def session_start : SessionSt :=
  { in_registry := true
    stop_requested := false
    stream_open := true
    stream_active := true
    raised := false
    phase := TPhase.writing }

/-- What `get_device_status` (lines 375-387) reports for this device. -/
def session_status (s : SessionSt) : String :=
  if s.in_registry then
    if s.stream_active then "Playing" else "Finished"
  else "Idle"

/-- One step of the session: the thread finishes `stream.write` and
enters the poll loop (line 184); the hardware buffer drains naturally
(`stream.active` flips to `False`, which the loop at lines 188-192
deliberately ignores); an idle loop iteration; an external stop
request (`stop_event.set()`); an exception raised inside the `try`
body — from `stream.start()`, `stream.write()` or the poll loop — that
jumps to the `except` handler (lines 212-217), which logs and reports
`Error` but does NOT close the stream; the loop exiting once the stop
event is set, stopping and closing the stream (lines 194-204); and
the `finally` cleanup deleting the registry entry (lines 218-226),
which runs after the normal teardown AND after the exception
handler. -/
inductive SessionStep : SessionSt → SessionSt → Prop where
  | finish_write (s : SessionSt) :
      s.phase = TPhase.writing →
      SessionStep s { s with phase := TPhase.polling }
  | drain (s : SessionSt) :
      s.stream_active = true →
      SessionStep s { s with stream_active := false }
  | poll_tick (s : SessionSt) :
      s.phase = TPhase.polling → s.stop_requested = false →
      SessionStep s s
  | request_stop (s : SessionSt) :
      SessionStep s { s with stop_requested := true }
  | raise_error (s : SessionSt) :
      s.phase = TPhase.writing ∨ s.phase = TPhase.polling →
      SessionStep s { s with phase := TPhase.errored, raised := true }
  | exit_loop (s : SessionSt) :
      s.phase = TPhase.polling → s.stop_requested = true →
      SessionStep s
        { s with phase := TPhase.closing, stream_open := false, stream_active := false }
  | thread_cleanup (s : SessionSt) :
      s.phase = TPhase.closing ∨ s.phase = TPhase.errored →
      SessionStep s { s with phase := TPhase.done, in_registry := false }

def SessionReachable (s : SessionSt) : Prop :=
  Relation.ReflTransGen SessionStep session_start s

/-! ## Manager-level transition system
Reachable states of the `AudioDeviceManager` registries under its
operations, for the registry invariant of claim C5. -/

inductive MgrStep : Mgr → Mgr → Prop where
  | play (m : Mgr) (d : Nat) (open_ok : Bool) :
      MgrStep m (play_on_device m d open_ok).2
  | stop_all (m : Mgr) :
      MgrStep m (stop_all_playback m)
  | cleanup (m : Mgr) (d : Nat) :
      MgrStep m (thread_cleanup_mgr m d)
  | drain (m : Mgr) (d : Nat) :
      MgrStep m (drain_mgr m d)
  | discover (m : Mgr) (devs : List AudioDevice) :
      MgrStep m { m with devices := devs }
  | mark_all (m : Mgr) :
      MgrStep m (play_all_mark m)

def MgrReachable (m : Mgr) : Prop :=
  Relation.ReflTransGen MgrStep init_mgr m

/-! ## Flask control surface (`Latest.py`)
Server-side state: the shared `audio_manager`, the module-level
`active_playbacks` dictionary and the set of temp files currently on
disk.  Python dictionaries keyed by ints resp. strings are kept apart
with `PyKey`, since `get_playback_status` compares string keys against
int keys. -/

inductive PyKey where
  | pyInt (n : Nat)
  | pyStr (s : String)
deriving DecidableEq, Repr

/-- One entry of `active_playbacks`: single-file batches store
`file_path` (`Latest.py` line 266), multi-file batches store
`file_paths`, a `type` tag and a `device_status` map with `str`
keys (lines 499-505). -/
structure Batch where
  start_time : Nat
  file_path : Option String
  file_paths : Option (List String)
  btype : Option String
  device_status : List (String × String)
deriving DecidableEq, Repr

structure WebState where
  mgr : Mgr
  active_playbacks : List (String × Batch)
  files : List String
deriving DecidableEq, Repr

/-- The temp-file unlink idiom
`try: if os.path.exists(p): os.unlink(p) except: pass` applied to a
dictionary access `info['file_path']`: when the key is absent the
`KeyError` is swallowed and nothing is unlinked. -/
def removeFile (files : List String) (p : Option String) : List String :=
  match p with
  | some fp => files.filter (fun f => f != fp)
  | none => files

/-- The loop of `/api/stop-playback` over the remaining batches
(`Latest.py` 318-328): unlink each batch `file_path` (a `KeyError`
when the key is absent is swallowed) and drop the entry. -/
def unlink_batches (fs : List String) (l : List (String × Batch)) : List String :=
  l.foldl (fun a pb => removeFile a pb.2.file_path) fs

/-- `/api/stop-playback` (`Latest.py` 297-333): always calls
`stop_all_playback`; then, if a known `playback_id` was supplied,
unlinks that batch single `file_path` and deletes its entry; then
iterates over ALL remaining batches doing the same.  Multi-file
batches have no `file_path` key, so their files are never unlinked. -/
def stop_playback (pid : Option String) (st : WebState) : WebState :=
  let mgr2 := stop_all_playback st.mgr
  match pid with
  | some p =>
      match st.active_playbacks.find? (fun pb => pb.1 == p) with
      | some pb =>
          { mgr := mgr2
            active_playbacks := []
            files := unlink_batches (removeFile st.files pb.2.file_path)
                       (st.active_playbacks.filter (fun q => q.1 != p)) }
      | none =>
          { mgr := mgr2
            active_playbacks := []
            files := unlink_batches st.files st.active_playbacks }
  | none =>
      { mgr := mgr2
        active_playbacks := []
        files := unlink_batches st.files st.active_playbacks }

/-- `multi_file_playing` computed by `/api/playback-status`
(`Latest.py` 532-539). -/
def multi_file_playing (pbs : List (String × Batch)) : Bool :=
  pbs.any (fun pb =>
    pb.2.btype == some "multi_file" &&
      pb.2.device_status.any (fun ds => ds.2 == "Playing"))

/-- The status-merge loop of `/api/playback-status` (lines 542-549):
for each multi-file batch, `device_status` entries whose (string) key
occurs among the (int) keys of the manager status are written over.
No string key ever equals an int key, so this never rewrites. -/
def merge_multi_status (status : List (PyKey × String))
    (pbs : List (String × Batch)) : List (PyKey × String) :=
  pbs.foldl (fun st pb =>
    if pb.2.btype == some "multi_file" then
      pb.2.device_status.foldl (fun st2 ds =>
        if st2.any (fun e => e.1 == PyKey.pyStr ds.1) then
          st2.map (fun e => if e.1 == PyKey.pyStr ds.1 then (e.1, ds.2) else e)
        else st2) st
    else st) status

structure StatusResp where
  devices : List (PyKey × String)
  is_playing : Bool
deriving DecidableEq, Repr

/-- `/api/playback-status` (`Latest.py` 525-561). -/
def get_playback_status (st : WebState) : StatusResp :=
  let status := (get_device_status st.mgr).map (fun p => (PyKey.pyInt p.1, p.2))
  let mfp := multi_file_playing st.active_playbacks
  let status2 := if mfp then merge_multi_status status st.active_playbacks else status
  { devices := status2, is_playing := st.mgr.is_playing || mfp }

/-- `time.sleep(300)` between sweep iterations (`Latest.py` 638). -/
def cleanup_interval : Nat := 300

/-- Age threshold `current_time - info['start_time'] > 600` (line 645). -/
def batch_age_limit : Nat := 600

/-- One iteration of `cleanup_temp_files` (`Latest.py` 635-658): the
batches older than the threshold are collected, then for each the code
unlinks `info['file_path']` (a `KeyError` for a multi-file batch is
swallowed by the bare `except`) and deletes the entry. -/
def cleanup_sweep (now : Nat) (st : WebState) : WebState :=
  let to_remove :=
    ((st.active_playbacks.filter
        (fun pb => batch_age_limit < now - pb.2.start_time)).map Prod.fst)
  to_remove.foldl (fun acc pid =>
    match acc.active_playbacks.find? (fun pb => pb.1 == pid) with
    | some pb =>
        { acc with
            files := removeFile acc.files pb.2.file_path
            active_playbacks := acc.active_playbacks.filter (fun q => q.1 != pid) }
    | none => acc) st

/-! ## `/api/play-multi-files` (`Latest.py` 397-522) -/

/-- An uploaded file: its client-side name and the array `sf.read`
would produce from its contents (`none` for undecodable content). -/
structure MFile where
  filename : String
  raw : Option NpArray
deriving DecidableEq, Repr

def ALLOWED_EXTENSIONS : List String :=
  ["wav", "mp3", "flac", "ogg", "m4a", "aac", "wma"]

/-- `allowed_file` (`Latest.py` 28-31):
`'.' in filename and filename.rsplit('.', 1)[1].lower() in ALLOWED_EXTENSIONS`. -/
def allowed_file (filename : String) : Bool :=
  let parts := filename.splitOn "."
  decide (2 ≤ parts.length) && ALLOWED_EXTENSIONS.contains (parts.getLastD "").toLower

/-- One entry of `playback_tasks` (`Latest.py` 454-458), additionally
carrying the saved temp-file contents so the later
`load_audio_file(task['file_path'])` can be evaluated. -/
structure MTask where
  file_path : String
  device_id : Nat
  filename : String
  raw : Option NpArray
deriving DecidableEq, Repr

/-- The temp path `tempfile.NamedTemporaryFile` yields for the file at
loop index `i` of one request. -/
def tmp_path (i : Nat) : String := "/tmp/upload" ++ toString i

/-- `mappings.get(str(i))` on the decoded JSON object. -/
def dict_get (m : List (String × String)) (k : String) : Option String :=
  (m.find? (fun p => p.1 == k)).map Prod.snd

/-- The validation-and-save loop (`Latest.py` 434-458), index `i`
running over `enumerate(files)`: empty filenames are skipped, a
disallowed extension aborts the request with an error (temp files
already saved stay on disk), a missing or empty mapping entry is
skipped, otherwise the file is saved to a temp path and a task is
recorded; a non-numeric device id makes `int(device_id)` raise, which
the outer handler turns into a 500 (again keeping saved files).
Errors carry the error message and the temp files saved so far. -/
def collect_tasks (mappings : List (String × String)) :
    Nat → List MFile → List String → List MTask →
    Except (String × List String) (List String × List MTask)
  | _, [], saved, tasks => Except.ok (saved, tasks)
  | i, f :: rest, saved, tasks =>
      if f.filename = "" then collect_tasks mappings (i + 1) rest saved tasks
      else if allowed_file f.filename = false then
        Except.error ("Invalid file type: " ++ f.filename, saved)
      else
        match dict_get mappings (toString i) with
        | none => collect_tasks mappings (i + 1) rest saved tasks
        | some did =>
            if did = "" then collect_tasks mappings (i + 1) rest saved tasks
            else
              let path := tmp_path i
              match did.toNat? with
              | none => Except.error ("invalid literal for int()", saved ++ [path])
              | some dnum =>
                  collect_tasks mappings (i + 1) rest (saved ++ [path])
                    (tasks ++ [{ file_path := path, device_id := dnum,
                                 filename := f.filename, raw := f.raw }])

structure ApiResp where
  ok : Bool
  msg : String
deriving DecidableEq, Repr

/-- Dictionary write `results[task['device_id']] = ...`. -/
def dict_put (l : List (Nat × Bool)) (k : Nat) (v : Bool) : List (Nat × Bool) :=
  if l.any (fun p => p.1 == k) then
    l.map (fun p => if p.1 == k then (p.1, v) else p)
  else l ++ [(k, v)]

def dict_get_nat (l : List (Nat × Bool)) (k : Nat) : Option Bool :=
  (l.find? (fun p => p.1 == k)).map Prod.snd

/-- `play_multi_files` (`Latest.py` 397-522).  `now` is the wall
clock, `new_pid` the fresh `uuid4`, `open_ok` the per-device backend
oracle fed to `play_on_device`.  Returns the JSON response outcome and
the successor server state. -/
def play_multi_files (now : Nat) (new_pid : String) (open_ok : Nat → Bool)
    (files : List MFile) (mappings : List (String × String)) (st : WebState) :
    ApiResp × WebState :=
  if files.isEmpty then ({ ok := false, msg := "No files selected" }, st)
  else if files.length ≠ mappings.length then
    ({ ok := false, msg := "Number of files must match number of device mappings" }, st)
  else
    match collect_tasks mappings 0 files [] [] with
    | Except.error (msg, saved) =>
        ({ ok := false, msg := msg }, { st with files := saved ++ st.files })
    | Except.ok (saved, tasks) =>
        if tasks.isEmpty then
          ({ ok := false, msg := "No valid file-device mappings" },
           { st with files := saved ++ st.files })
        else
          let run := tasks.foldl
            (fun (acc : Mgr × List (Nat × Bool)) t =>
              match load_audio_file t.raw with
              | Except.error _ => (acc.1, dict_put acc.2 t.device_id false)
              | Except.ok _ =>
                  let r := play_on_device acc.1 t.device_id (open_ok t.device_id)
                  (r.2, dict_put acc.2 t.device_id r.1))
            (st.mgr, [])
          let dstatus := tasks.filterMap (fun t =>
            if dict_get_nat run.2 t.device_id = some true then
              some (toString t.device_id, "Playing")
            else none)
          let batch : Batch :=
            { start_time := now
              file_path := none
              file_paths := some (tasks.map (fun t => t.file_path))
              btype := some "multi_file"
              device_status := dstatus }
          ({ ok := true, msg := "Playing different files" },
           { mgr := run.1
             active_playbacks := st.active_playbacks ++ [(new_pid, batch)]
             files := saved ++ st.files })

/-! ## Concrete fixtures used by witnesses and counterexamples -/

def dev0 : AudioDevice :=
  { index := 0
    name := "Speakers"
    max_input_channels := 0
    max_output_channels := 2
    default_samplerate := 44100
    is_default := true }

/-! ## Behaviour of `play_on_device`, case by case -/

theorem play_notfound {m : Mgr} {d : Nat} {ok : Bool}
    (hf : find_device m d = none) :
    play_on_device m d ok = (false, m) := by
  unfold play_on_device play_on_device_try
  rw [hf]

theorem play_busy {m : Mgr} {d : Nat} {ok : Bool}
    (hb : (m.active_streams.find? (fun p => p.1 == d)).isSome = true) :
    play_on_device m d ok = (false, m) := by
  unfold play_on_device play_on_device_try
  cases hf : find_device m d with
  | none => rfl
  | some dev => simp [hb]

theorem play_cap {m : Mgr} {d : Nat} {ok : Bool}
    (hc : m.max_simultaneous_streams ≤ m.active_streams.length) :
    play_on_device m d ok = (false, m) := by
  unfold play_on_device play_on_device_try
  cases hf : find_device m d with
  | none => rfl
  | some dev =>
    by_cases hb : (m.active_streams.find? (fun p => p.1 == d)).isSome = true
    · simp [hb]
    · simp [hb, hc]

theorem play_openfail {m : Mgr} {d : Nat} {dev : AudioDevice}
    (hf : find_device m d = some dev)
    (hb : m.active_streams.find? (fun p => p.1 == d) = none)
    (hc : m.active_streams.length < m.max_simultaneous_streams) :
    play_on_device m d false =
      (false, { m with stop_events := key_insert m.stop_events d }) := by
  unfold play_on_device play_on_device_try
  rw [hf]
  simp [hb, Nat.not_le.mpr hc]

theorem play_success {m : Mgr} {d : Nat} {dev : AudioDevice}
    (hf : find_device m d = some dev)
    (hb : m.active_streams.find? (fun p => p.1 == d) = none)
    (hc : m.active_streams.length < m.max_simultaneous_streams) :
    play_on_device m d true =
      (true,
        { m with
            stop_events := key_insert m.stop_events d
            active_streams := (d, StreamSt.mk true) :: m.active_streams
            playback_threads := key_insert m.playback_threads d }) := by
  unfold play_on_device play_on_device_try
  rw [hf]
  simp [hb, Nat.not_le.mpr hc]

/-- Every call to `play_on_device` either leaves `active_streams`
untouched, or prepends a fresh entry for a device that was absent
while the registry was below the cap; the cap and catalog fields are
never changed. -/
theorem play_state_cases (m : Mgr) (d : Nat) (ok : Bool) :
    (play_on_device m d ok).2.max_simultaneous_streams = m.max_simultaneous_streams ∧
    ((play_on_device m d ok).2.active_streams = m.active_streams ∨
      ((play_on_device m d ok).2.active_streams = (d, StreamSt.mk true) :: m.active_streams ∧
        m.active_streams.find? (fun p => p.1 == d) = none ∧
        m.active_streams.length < m.max_simultaneous_streams)) := by
  cases hf : find_device m d with
  | none => rw [play_notfound hf]; exact ⟨rfl, Or.inl rfl⟩
  | some dev =>
    cases hb : m.active_streams.find? (fun p => p.1 == d) with
    | some p =>
        rw [play_busy (by simp [hb])]
        exact ⟨rfl, Or.inl rfl⟩
    | none =>
      by_cases hc : m.max_simultaneous_streams ≤ m.active_streams.length
      · rw [play_cap hc]; exact ⟨rfl, Or.inl rfl⟩
      · have hcl := Nat.lt_of_not_le hc
        cases ok with
        | false => rw [play_openfail hf hb hcl]; exact ⟨rfl, Or.inl rfl⟩
        | true =>
            rw [play_success hf hb hcl]
            exact ⟨rfl, Or.inr ⟨rfl, rfl, hcl⟩⟩

/-- Claim C6: `play_on_device` always returns a boolean to the caller
and never propagates an exception — any exception of its body is
converted by the outer handler into a plain `False` result — and the
result is `False` in each of the three expected failure cases: device
not in the current catalog, device already holding an active stream,
and registry at the concurrency cap. -/
theorem C6_play_on_device_false_cases (m : Mgr) (d : Nat) (ok : Bool) :
    (find_device m d = none → (play_on_device m d ok).1 = false) ∧
    ((m.active_streams.find? (fun p => p.1 == d)).isSome = true →
      (play_on_device m d ok).1 = false) ∧
    (m.max_simultaneous_streams ≤ m.active_streams.length →
      (play_on_device m d ok).1 = false) ∧
    (∀ m1, play_on_device_try m d ok = Except.error m1 →
      play_on_device m d ok = (false, m1)) := by
  refine ⟨?_, ?_, ?_, ?_⟩
  · intro hf; rw [play_notfound hf]
  · intro hb; rw [play_busy hb]
  · intro hc; rw [play_cap hc]
  · intro m1 herr
    unfold play_on_device
    rw [herr]

def c6_mgr : Mgr :=
  { init_mgr with
      active_streams := [(0, StreamSt.mk true)]
      stop_events := [0]
      playback_threads := [0]
      max_simultaneous_streams := 1 }

def c6_mgr2 : Mgr := { init_mgr with devices := [dev0] }

/-- Witness for C6: on a catalog-less manager at cap with device 0
busy all three failure cases fire, and on a fresh manager whose
stream open fails the raised exception is still returned as `False`. -/
theorem C6_witness :
    ((play_on_device c6_mgr 0 true).1 = false ∧
      (play_on_device c6_mgr 0 true).1 = false ∧
      (play_on_device c6_mgr 0 true).1 = false) ∧
    play_on_device c6_mgr2 0 false =
      (false, { c6_mgr2 with stop_events := [0] }) := by
  have h1 := C6_play_on_device_false_cases c6_mgr 0 true
  have h2 := C6_play_on_device_false_cases c6_mgr2 0 false
  refine ⟨⟨h1.1 (by decide), h1.2.1 (by decide), h1.2.2.1 (by decide)⟩, ?_⟩
  exact h2.2.2.2 { c6_mgr2 with stop_events := [0] } rfl

/-- Counterexample to claim C9 as stated: on a manager that knows
device 0 and is otherwise idle, a `play_on_device` call whose stream
opening raises returns `False` yet leaves a stale entry for the
device in `stop_events`, so the failure is not atomic. -/
theorem C9_counterexample :
    (play_on_device c6_mgr2 0 false).1 = false ∧
    (play_on_device c6_mgr2 0 false).2.stop_events = [0] ∧
    c6_mgr2.stop_events = [] := by decide

/-- Claim C9 amended: when `play_on_device` returns `False` from one
of the three early checks (the only failures possible when the stream
opens fine), the manager state is exactly as before the call; but
when the stream opening raises — after the stop event was registered
at line 153 — the call returns `False` with the device still
registered in `stop_events` (while `active_streams` and
`playback_threads` are untouched). -/
theorem C9_amended_failure_atomicity (m : Mgr) (d : Nat) :
    ((play_on_device m d true).1 = false → (play_on_device m d true).2 = m) ∧
    (∀ dev, find_device m d = some dev →
      m.active_streams.find? (fun p => p.1 == d) = none →
      m.active_streams.length < m.max_simultaneous_streams →
      play_on_device m d false =
        (false, { m with stop_events := key_insert m.stop_events d })) := by
  constructor
  · intro hfalse
    cases hf : find_device m d with
    | none => rw [play_notfound hf]
    | some dev =>
      cases hb : m.active_streams.find? (fun p => p.1 == d) with
      | some p => rw [play_busy (by simp [hb])]
      | none =>
        by_cases hc : m.max_simultaneous_streams ≤ m.active_streams.length
        · rw [play_cap hc]
        · exfalso
          rw [play_success hf hb (Nat.lt_of_not_le hc)] at hfalse
          simp at hfalse
  · intro dev hf hb hc
    exact play_openfail hf hb hc

def c9w_mgr : Mgr :=
  { init_mgr with
      devices := [dev0]
      active_streams := [(0, StreamSt.mk true)]
      stop_events := [0]
      playback_threads := [0]
      is_playing := true }

/-- Witness for the amended C9: a busy-device failure leaves the
state unchanged, and a stream-open failure leaves exactly the stale
stop event behind. -/
theorem C9_witness :
    (play_on_device c9w_mgr 0 true).2 = c9w_mgr ∧
    play_on_device c6_mgr2 0 false =
      (false, { c6_mgr2 with stop_events := [0] }) := by
  constructor
  · exact (C9_amended_failure_atomicity c9w_mgr 0).1 (by decide)
  · exact (C9_amended_failure_atomicity c6_mgr2 0).2 dev0 (by decide) (by decide) (by decide)

def c7_batch : Batch :=
  { start_time := 0
    file_path := none
    file_paths := some ["/tmp/x", "/tmp/y"]
    btype := some "multi_file"
    device_status := [] }

def c7_state : WebState :=
  { mgr := init_mgr
    active_playbacks := [("m", c7_batch)]
    files := ["/tmp/x", "/tmp/y"] }

/-- Claim C7 is violated by the code (code bug): the periodic sweep
`cleanup_temp_files` reads `info['file_path']`, a key a multi-file
batch does not have, and the resulting `KeyError` is swallowed by the
bare `except`; so sweeping an expired multi-file batch removes the
batch entry while unlinking none of the files in its `file_paths` —
here both `/tmp/x` and `/tmp/y` survive the sweep. -/
theorem C7_sweep_leaks_multi_file_batch :
    (cleanup_sweep 601 c7_state).active_playbacks = [] ∧
    (cleanup_sweep 601 c7_state).files = ["/tmp/x", "/tmp/y"] ∧
    batch_age_limit < 601 - c7_batch.start_time ∧
    cleanup_interval = 300 ∧ batch_age_limit = 600 := by decide

/-- Claim C8: a `play_multi_files` request in which the number of
files differs from the number of device-mapping entries is rejected
with an error response before any session is started — the server
state, manager included, is returned unchanged. -/
theorem C8_length_mismatch_rejected (now : Nat) (new_pid : String)
    (open_ok : Nat → Bool) (files : List MFile)
    (mappings : List (String × String)) (st : WebState)
    (h : files.length ≠ mappings.length) :
    (play_multi_files now new_pid open_ok files mappings st).1.ok = false ∧
    (play_multi_files now new_pid open_ok files mappings st).2 = st := by
  cases files with
  | nil => simp [play_multi_files]
  | cons f rest =>
      have h' : ¬(rest.length + 1 = mappings.length) := by simpa using h
      simp [play_multi_files, h']

def c8_file : MFile := { filename := "a.wav", raw := none }

def c8_state : WebState := { mgr := init_mgr, active_playbacks := [], files := [] }

/-- Witness for C8: one uploaded file against an empty mapping is
rejected and the state is untouched. -/
theorem C8_witness :
    ([c8_file].length ≠ ([] : List (String × String)).length) ∧
    (play_multi_files 0 "pid" (fun _ => true) [c8_file] [] c8_state).1.ok = false ∧
    (play_multi_files 0 "pid" (fun _ => true) [c8_file] [] c8_state).2 = c8_state := by
  have h := C8_length_mismatch_rejected 0 "pid" (fun _ => true) [c8_file] [] c8_state
    (by decide)
  exact ⟨by decide, h.1, h.2⟩

/-- Claim C10: a missing file makes `load_audio_file` raise
`FileNotFoundError` and an empty array makes it raise `ValueError`
(never returning an empty buffer); every successfully returned array
is 2-dimensional with at least one channel, a 1-D mono signal having
been reshaped to a column of shape `(N, 1)`.  The hypothesis states
the `sf.read` contract: a decoded audio array has one or two axes. -/
theorem C10_load_audio_file_shape (file : Option NpArray)
    (hdim : ∀ a, file = some a → a.ndim = 1 ∨ a.ndim = 2) :
    load_audio_file none = Except.error LoadError.fileNotFound ∧
    (∀ a, file = some a → a.size = 0 →
      load_audio_file file = Except.error LoadError.emptyFile) ∧
    (∀ r, load_audio_file file = Except.ok r →
      r.ndim = 2 ∧ 1 ≤ r.shape.getD 1 0 ∧
      (∀ a, file = some a → a.ndim = 1 → r = a.reshapeCol)) := by
  refine ⟨rfl, ?_, ?_⟩
  · intro a ha hsz
    subst ha
    simp [load_audio_file, hsz]
  · intro r hr
    cases file with
    | none => simp [load_audio_file] at hr
    | some a =>
      have hd := hdim a rfl
      by_cases hsz : a.size = 0
      · simp [load_audio_file, hsz] at hr
      · by_cases h1 : a.ndim = 1
        · have hra : r = a.reshapeCol := by
            simp [load_audio_file, hsz, h1] at hr
            exact hr.symm
          subst hra
          exact ⟨rfl, by simp [NpArray.reshapeCol, NpArray.ndim], fun a2 ha2 _ => by
            cases ha2; rfl⟩
        · have h2 : a.ndim = 2 := hd.resolve_left h1
          have hra : r = a := by
            simp [load_audio_file, hsz, h1] at hr
            exact hr.symm
          subst hra
          obtain ⟨x, y, hxy⟩ := List.length_eq_two.mp h2
          refine ⟨h2, ?_, fun a2 ha2 h1' => absurd (by cases ha2; exact h1') h1⟩
          have hy : y ≠ 0 := by
            intro h0
            exact hsz (by simp [NpArray.size, hxy, h0])
          simp [hxy, Nat.one_le_iff_ne_zero, hy]

def c10_file : NpArray := { shape := [3], data := [1, 2, 3] }

def c10_loaded : NpArray := { shape := [3, 1], data := [1, 2, 3] }

/-- Witness for C10: a 3-sample mono file loads to shape `(3, 1)`. -/
theorem C10_witness :
    load_audio_file (some c10_file) = Except.ok c10_loaded ∧
    c10_loaded.ndim = 2 ∧ 1 ≤ c10_loaded.shape.getD 1 0 := by
  have h := C10_load_audio_file_shape (some c10_file)
    (by intro a ha; cases ha; left; rfl)
  have hld : load_audio_file (some c10_file) = Except.ok c10_loaded := rfl
  exact ⟨hld, (h.2.2 c10_loaded hld).1, (h.2.2 c10_loaded hld).2.1⟩

/-- Claim C3: the output stream is opened with channel count
`min(buffer.channels, device.max_output_channels)`, which never
exceeds the buffer channel count (no upmix); when the device supports
fewer channels than the buffer has, the written data is the
per-sample average over all the buffer channels (downmix by
averaging), and when the buffer has no more channels than the device
the data is written unchanged.  `1 ≤ devMax` holds for every device
in the catalog, since discovery keeps only devices with
`max_output_channels > 0`. -/
theorem C3_channel_clamp_and_downmix (bufCh devMax : Nat) (frames : List (List ℚ))
    (hdev : 1 ≤ devMax) :
    play_stream_channels bufCh devMax = min bufCh devMax ∧
    play_stream_channels bufCh devMax ≤ bufCh ∧
    (devMax < bufCh →
      play_write_data frames bufCh devMax =
        frames.map (fun r => [r.sum / (bufCh : ℚ)])) ∧
    (bufCh ≤ devMax → play_write_data frames bufCh devMax = frames) := by
  refine ⟨rfl, Nat.min_le_left _ _, ?_, ?_⟩
  · intro hlt
    have h1 : play_stream_channels bufCh devMax < bufCh := by
      simp only [play_stream_channels]
      omega
    have h2 : 1 < bufCh := lt_of_le_of_lt hdev hlt
    simp [play_write_data, h1, h2]
  · intro hle
    have h1 : ¬(play_stream_channels bufCh devMax < bufCh) := by
      simp only [play_stream_channels]
      omega
    simp [play_write_data, h1]

/-- Witness for C3: a stereo buffer on a mono device is opened with 1
channel and its frames averaged. -/
theorem C3_witness :
    play_stream_channels 2 1 = 1 ∧
    play_write_data [[(1 : ℚ), 3]] 2 1 = [[2]] := by
  have h := C3_channel_clamp_and_downmix 2 1 [[(1 : ℚ), 3]] (le_refl 1)
  constructor
  · rw [h.1]; norm_num
  · rw [h.2.2.1 (by norm_num)]
    norm_num

def c1_errored : SessionSt :=
  { session_start with phase := TPhase.errored, raised := true }

def c1_after_error_cleanup : SessionSt :=
  { in_registry := false
    stop_requested := false
    stream_open := true
    stream_active := true
    raised := true
    phase := TPhase.done }

/-- Counterexample to claim C1 as stated: when an exception is raised
inside the playback thread — e.g. `stream.start()` or
`stream.write()` failing — the `except` handler (lines 212-217) runs
and then the `finally` cleanup (lines 218-226) deletes the
`active_streams` entry although no stop was ever requested; from then
on `get_device_status` reports the device as `Idle` (with the stream,
never closed on this path, leaked).  So the universal persistence
statement is false of the program: the state below is reachable with
`stop_requested = false`, yet the registry entry is gone and the
status is `Idle`. -/
theorem C1_counterexample :
    SessionReachable c1_after_error_cleanup ∧
    c1_after_error_cleanup.stop_requested = false ∧
    c1_after_error_cleanup.in_registry = false ∧
    session_status c1_after_error_cleanup = "Idle" := by
  refine ⟨?_, rfl, rfl, rfl⟩
  have s1 : SessionStep session_start c1_errored :=
    SessionStep.raise_error session_start (Or.inl rfl)
  have s2 : SessionStep c1_errored c1_after_error_cleanup :=
    SessionStep.thread_cleanup c1_errored (Or.inr rfl)
  exact Relation.ReflTransGen.tail
    (Relation.ReflTransGen.tail Relation.ReflTransGen.refl s1) s2

/-- While no stop has been requested and no exception has been raised
in the playback thread, a started session keeps its registry entry,
keeps its stream open and its thread never leaves the write/poll part
of its loop. -/
theorem session_no_stop_invariant (s : SessionSt) (h : SessionReachable s) :
    s.stop_requested = false → s.raised = false →
    s.in_registry = true ∧ s.stream_open = true ∧
      (s.phase = TPhase.writing ∨ s.phase = TPhase.polling) := by
  induction h with
  | refl => intro _ _; exact ⟨rfl, rfl, Or.inl rfl⟩
  | tail hab hbc ih =>
    intro hstop hraised
    cases hbc with
    | finish_write ht =>
        obtain ⟨h1, h2, _⟩ := ih hstop hraised
        exact ⟨h1, h2, Or.inr rfl⟩
    | drain ht => exact ih hstop hraised
    | poll_tick h1 h2 => exact ih hstop hraised
    | request_stop => simp at hstop
    | raise_error hph => simp at hraised
    | exit_loop h1 h2 =>
        exact absurd hstop (by simp [h2])
    | thread_cleanup ht =>
        obtain ⟨_, _, h3⟩ := ih hstop hraised
        rcases ht with hc | hc <;> rcases h3 with h | h <;>
          rw [hc] at h <;> simp at h

/-- Claim C1 amended: in every state a started session can reach
while no stop has been requested AND the playback thread has not
raised an exception — in particular after the hardware buffer has
drained naturally — the registry entry is still present, the stream
is still open and the status reported for the device is `Playing` or
`Finished`, never `Idle`.  (A backend exception in the thread,
by contrast, removes the registry entry without any stop, as the
counterexample shows; natural exhaustion alone never does.) -/
theorem C1_session_persists_until_stop (s : SessionSt) (h : SessionReachable s)
    (hstop : s.stop_requested = false) (hraised : s.raised = false) :
    s.in_registry = true ∧ s.stream_open = true ∧
      (session_status s = "Playing" ∨ session_status s = "Finished") := by
  obtain ⟨h1, h2, _⟩ := session_no_stop_invariant s h hstop hraised
  refine ⟨h1, h2, ?_⟩
  cases hsa : s.stream_active
  · right; simp [session_status, h1, hsa]
  · left; simp [session_status, h1, hsa]

def session_drained : SessionSt :=
  { in_registry := true
    stop_requested := false
    stream_open := true
    stream_active := false
    raised := false
    phase := TPhase.polling }

/-- Witness for C1: the state reached by finishing the write and then
letting the hardware drain is reachable with no stop requested and no
exception raised, and there the session still exists with a `Playing`
or `Finished` status (concretely `Finished`). -/
theorem C1_witness :
    session_drained.stop_requested = false ∧
    session_drained.raised = false ∧
    session_status session_drained = "Finished" ∧
    (session_drained.in_registry = true ∧ session_drained.stream_open = true ∧
      (session_status session_drained = "Playing" ∨
        session_status session_drained = "Finished")) := by
  have hreach : SessionReachable session_drained := by
    have s1 : SessionStep session_start { session_start with phase := TPhase.polling } :=
      SessionStep.finish_write session_start rfl
    have s2 : SessionStep { session_start with phase := TPhase.polling } session_drained :=
      SessionStep.drain { session_start with phase := TPhase.polling } rfl
    exact Relation.ReflTransGen.tail
      (Relation.ReflTransGen.tail Relation.ReflTransGen.refl s1) s2
  exact ⟨rfl, rfl, rfl, C1_session_persists_until_stop session_drained hreach rfl rfl⟩

theorem find?_none_not_mem {l : List (Nat × StreamSt)} {d : Nat}
    (h : l.find? (fun p => p.1 == d) = none) : d ∉ l.map Prod.fst := by
  intro hmem
  obtain ⟨p, hp, hpd⟩ := List.mem_map.mp hmem
  have hnp := List.find?_eq_none.mp h p hp
  simp [hpd] at hnp

theorem map_fst_update (l : List (Nat × StreamSt)) (d : Nat) :
    ((l.map (fun p => if p.1 == d then (p.1, StreamSt.mk false) else p)).map Prod.fst)
      = l.map Prod.fst := by
  induction l with
  | nil => rfl
  | cons a t ih =>
      simp only [List.map_cons, ih, List.cons.injEq]
      refine ⟨?_, trivial⟩
      by_cases h : (a.1 == d) = true <;> simp [h]

/-- The registry invariant holds in every reachable manager state:
the number of active streams never exceeds the configured cap, and no
device index occurs twice among the registry keys. -/
theorem mgr_reachable_invariant (m : Mgr) (h : MgrReachable m) :
    m.active_streams.length ≤ m.max_simultaneous_streams ∧
    (m.active_streams.map Prod.fst).Nodup := by
  induction h with
  | refl => exact ⟨Nat.zero_le _, List.nodup_nil⟩
  | tail hab hbc ih =>
    rename_i b c
    cases hbc with
    | play d ok =>
        obtain ⟨hmax, hcase⟩ := play_state_cases b d ok
        rcases hcase with he | ⟨he, hb, hc⟩
        · rw [he, hmax]; exact ih
        · constructor
          · rw [he, hmax]
            simpa [List.length_cons] using hc
          · rw [he]
            simp only [List.map_cons]
            exact List.nodup_cons.mpr ⟨find?_none_not_mem hb, ih.2⟩
    | stop_all => exact ⟨Nat.zero_le _, List.nodup_nil⟩
    | cleanup d =>
        constructor
        · exact le_trans (List.length_filter_le _ _) ih.1
        · have hsub : (thread_cleanup_mgr b d).active_streams.Sublist b.active_streams :=
            List.filter_sublist _
          exact (hsub.map Prod.fst).nodup ih.2
    | drain d =>
        constructor
        · simpa [drain_mgr] using ih.1
        · have he : ((drain_mgr b d).active_streams.map Prod.fst)
              = b.active_streams.map Prod.fst := map_fst_update _ d
          rw [he]; exact ih.2
    | discover devs => exact ih
    | mark_all => exact ih

/-- Claim C5: in every reachable manager state, `active_streams`
holds at most `max_simultaneous_streams` entries (4 from `__init__`)
with at most one entry per device index, and a `play_on_device` call
on a busy device or on a manager at the cap returns `False` with the
state — every existing session included — completely untouched. -/
theorem C5_registry_cap_and_uniqueness (m : Mgr) (h : MgrReachable m) :
    (m.active_streams.length ≤ m.max_simultaneous_streams ∧
      (m.active_streams.map Prod.fst).Nodup) ∧
    (∀ d ok, (m.active_streams.find? (fun p => p.1 == d)).isSome = true →
      play_on_device m d ok = (false, m)) ∧
    (∀ d ok, m.max_simultaneous_streams ≤ m.active_streams.length →
      play_on_device m d ok = (false, m)) :=
  ⟨mgr_reachable_invariant m h,
   fun _ _ hb => play_busy hb,
   fun _ _ hc => play_cap hc⟩

def c5_mgr0 : Mgr := { init_mgr with devices := [dev0] }

def c5_mgr1 : Mgr := (play_on_device c5_mgr0 0 true).2

/-- Witness for C5: after discovery and one successful start, the
reachable state satisfies the cap bound and a second start on the
same device fails leaving the state untouched. -/
theorem C5_witness :
    c5_mgr1.active_streams.length ≤ c5_mgr1.max_simultaneous_streams ∧
    play_on_device c5_mgr1 0 true = (false, c5_mgr1) := by
  have hreach : MgrReachable c5_mgr1 :=
    Relation.ReflTransGen.tail
      (Relation.ReflTransGen.tail Relation.ReflTransGen.refl
        (MgrStep.discover init_mgr [dev0]))
      (MgrStep.play c5_mgr0 0 true)
  have h := C5_registry_cap_and_uniqueness c5_mgr1 hreach
  exact ⟨h.1.1, h.2.1 0 true (by decide)⟩

def c2_mgr : Mgr :=
  { init_mgr with
      devices := [dev0]
      active_streams := [(0, StreamSt.mk false)]
      stop_events := [0]
      playback_threads := [0]
      is_playing := true }

def c2_state : WebState :=
  { mgr := c2_mgr, active_playbacks := [], files := [] }

/-- Counterexample to claim C2 as stated: after `play_on_all_devices`
set the manager flag and the only session drained naturally to
`Finished`, the status endpoint still reports `is_playing = true`
although no tracked session is `Playing` — the flag is cleared only
by `stop_all_playback`, not by sessions leaving the `Playing`
state. -/
theorem C2_counterexample :
    (get_playback_status c2_state).is_playing = true ∧
    (get_device_status c2_state.mgr).all (fun p => p.2 != "Playing") = true ∧
    multi_file_playing c2_state.active_playbacks = false := by decide

/-- Claim C2 amended: the `is_playing` field of the status response
equals the disjunction of the manager `is_playing` flag (set by
`play_on_all_devices`, cleared only by `stop_all_playback`) and of
some batch of type `multi_file` recording at least one device status
as `Playing`; it is not equivalent to some tracked session currently
being in state `Playing`. -/
theorem C2_amended_is_playing (st : WebState) :
    ((get_playback_status st).is_playing = true ↔
      (st.mgr.is_playing = true ∨ multi_file_playing st.active_playbacks = true)) ∧
    (multi_file_playing st.active_playbacks = true →
      ∃ pb ∈ st.active_playbacks, pb.2.btype = some "multi_file" ∧
        ∃ e ∈ pb.2.device_status, e.2 = "Playing") := by
  constructor
  · simp [get_playback_status]
  · intro h
    simp only [multi_file_playing, List.any_eq_true, Bool.and_eq_true, beq_iff_eq] at h
    obtain ⟨pb, hmem, hbt, hps⟩ := h
    refine ⟨pb, hmem, hbt, ?_⟩
    simpa only [List.any_eq_true, beq_iff_eq] using hps

def c2w_batch : Batch :=
  { start_time := 0
    file_path := none
    file_paths := some ["/tmp/q"]
    btype := some "multi_file"
    device_status := [("1", "Playing")] }

def c2w_state : WebState :=
  { mgr := init_mgr
    active_playbacks := [("p", c2w_batch)]
    files := ["/tmp/q"] }

/-- Witness for the amended C2: a multi-file batch with a device
recorded as `Playing` makes the endpoint report `is_playing`. -/
theorem C2_witness :
    (get_playback_status c2w_state).is_playing = true ∧
    (∃ pb ∈ c2w_state.active_playbacks, pb.2.btype = some "multi_file" ∧
      ∃ e ∈ pb.2.device_status, e.2 = "Playing") := by
  have h := C2_amended_is_playing c2w_state
  exact ⟨h.1.mpr (Or.inr (by decide)), h.2 (by decide)⟩

theorem removeFile_not_mem_of {fs : List String} {f : String} (p : Option String)
    (h : f ∉ fs) : f ∉ removeFile fs p := by
  cases p with
  | none => exact h
  | some fp => exact fun hm => h (List.mem_of_mem_filter hm)

theorem removeFile_self (fs : List String) (f : String) :
    f ∉ removeFile fs (some f) := by
  intro hm
  have := List.of_mem_filter hm
  simp at this

theorem removeFile_keeps {fs : List String} {f : String} {p : Option String}
    (hf : f ∈ fs) (hp : p ≠ some f) : f ∈ removeFile fs p := by
  cases p with
  | none => exact hf
  | some fp =>
      refine List.mem_filter.mpr ⟨hf, ?_⟩
      simp only [bne_iff_ne, ne_eq]
      intro he
      exact hp (by rw [he])

theorem unlink_batches_not_mem {f : String} (l : List (String × Batch))
    {fs : List String} (h : f ∉ fs) : f ∉ unlink_batches fs l := by
  induction l generalizing fs with
  | nil => exact h
  | cons a t ih => exact ih (removeFile_not_mem_of _ h)

theorem unlink_batches_of_mem {f : String} {l : List (String × Batch)}
    {fs : List String} {pb : String × Batch} (hpb : pb ∈ l)
    (hfp : pb.2.file_path = some f) : f ∉ unlink_batches fs l := by
  induction l generalizing fs with
  | nil => cases hpb
  | cons a t ih =>
      rcases List.mem_cons.mp hpb with h | h
      · subst h
        show f ∉ unlink_batches (removeFile fs pb.2.file_path) t
        apply unlink_batches_not_mem
        rw [hfp]
        exact removeFile_self fs f
      · exact ih h

theorem unlink_batches_keeps {f : String} {l : List (String × Batch)}
    {fs : List String} (hf : f ∈ fs)
    (h : ∀ pb ∈ l, pb.2.file_path ≠ some f) : f ∈ unlink_batches fs l := by
  induction l generalizing fs with
  | nil => exact hf
  | cons a t ih =>
      show f ∈ unlink_batches (removeFile fs a.2.file_path) t
      exact ih (removeFile_keeps hf (h a (List.mem_cons_self a t)))
        (fun pb hpb => h pb (List.mem_cons_of_mem a hpb))

def c4_batchA : Batch :=
  { start_time := 0
    file_path := none
    file_paths := some ["/tmp/a1"]
    btype := some "multi_file"
    device_status := [("1", "Playing")] }

def c4_batchB : Batch :=
  { start_time := 0
    file_path := some "/tmp/b1"
    file_paths := none
    btype := none
    device_status := [] }

def c4_mgr : Mgr :=
  { init_mgr with
      devices := [dev0]
      active_streams := [(2, StreamSt.mk true)]
      stop_events := [2]
      playback_threads := [2]
      is_playing := true }

def c4_state : WebState :=
  { mgr := c4_mgr
    active_playbacks := [("a", c4_batchA), ("b", c4_batchB)]
    files := ["/tmp/a1", "/tmp/b1"] }

/-- Counterexample to claim C4 as stated: stopping batch `"a"` by id
also deletes the unrelated batch `"b"`, stops its running session and
unlinks its temp file — stop-by-id is not selective — and does not
even unlink the temp files of batch `"a"` itself, because a
multi-file batch stores them under `file_paths`, a key the cleanup
code never reads. -/
theorem C4_counterexample :
    (stop_playback (some "a") c4_state).active_playbacks = [] ∧
    (stop_playback (some "a") c4_state).mgr.active_streams = [] ∧
    "/tmp/b1" ∉ (stop_playback (some "a") c4_state).files ∧
    "/tmp/a1" ∈ (stop_playback (some "a") c4_state).files := by decide

/-- Claim C4 amended: a stop request stops ALL playback and removes
every tracked batch regardless of whether a `batch_id` is supplied:
the manager registries are cleared, `is_playing` is reset, every
batch entry is deleted, and every file recorded as some batch single
`file_path` is unlinked — while files only recorded in a multi-file
batch `file_paths` list are left on disk.  (The hypothesis that the
batch ids are pairwise distinct is the python dict key invariant.) -/
theorem C4_amended_stop_is_global (pid : Option String) (st : WebState)
    (hnd : (st.active_playbacks.map Prod.fst).Nodup) :
    (stop_playback pid st).active_playbacks = [] ∧
    (stop_playback pid st).mgr.active_streams = [] ∧
    (stop_playback pid st).mgr.is_playing = false ∧
    (∀ pb ∈ st.active_playbacks, ∀ fp, pb.2.file_path = some fp →
      fp ∉ (stop_playback pid st).files) ∧
    (∀ f ∈ st.files, (∀ pb ∈ st.active_playbacks, pb.2.file_path ≠ some f) →
      f ∈ (stop_playback pid st).files) := by
  cases pid with
  | none =>
      refine ⟨rfl, rfl, rfl, ?_, ?_⟩
      · intro pb hpb fp hfp
        exact unlink_batches_of_mem hpb hfp
      · intro f hf h
        exact unlink_batches_keeps hf h
  | some p =>
      cases hfind : st.active_playbacks.find? (fun pb => pb.1 == p) with
      | none =>
          simp only [stop_playback, hfind]
          refine ⟨by trivial, by trivial, by trivial, ?_, ?_⟩
          · intro pb hpb fp hfp
            exact unlink_batches_of_mem hpb hfp
          · intro f hf h
            exact unlink_batches_keeps hf h
      | some pb0 =>
          have hpb0mem : pb0 ∈ st.active_playbacks := List.mem_of_find?_eq_some hfind
          have hpb0key : pb0.1 = p := by
            have := List.find?_some hfind
            simpa using this
          simp only [stop_playback, hfind]
          refine ⟨by trivial, by trivial, by trivial, ?_, ?_⟩
          · intro pb hpb fp hfp
            by_cases hkey : pb.1 = p
            · have hpe : pb = pb0 :=
                List.inj_on_of_nodup_map hnd hpb hpb0mem
                  (hkey.trans hpb0key.symm)
              apply unlink_batches_not_mem
              rw [← hpe, hfp]
              exact removeFile_self st.files fp
            · have hmem2 : pb ∈ st.active_playbacks.filter (fun q => q.1 != p) :=
                List.mem_filter.mpr ⟨hpb, by simpa [bne_iff_ne] using hkey⟩
              exact unlink_batches_of_mem hmem2 hfp
          · intro f hf h
            apply unlink_batches_keeps
            · exact removeFile_keeps hf (h pb0 hpb0mem)
            · intro pb hpb
              exact h pb (List.mem_of_mem_filter hpb)

/-- Witness for the amended C4: applying the global-stop theorem to
the two-batch state shows every batch gone, the manager idle, and the
single-file temp of batch `"b"` unlinked. -/
theorem C4_witness :
    (stop_playback (some "a") c4_state).mgr.is_playing = false ∧
    "/tmp/b1" ∉ (stop_playback (some "a") c4_state).files := by
  have h := C4_amended_stop_is_global (some "a") c4_state (by decide)
  exact ⟨h.2.2.1, h.2.2.2.1 ("b", c4_batchB) (by decide) "/tmp/b1" rfl⟩

end LEAudioVerify
